import Mathlib

/-!
Verification of the pure transformation logic of the astronaut
record-enrichment and derived-metrics pipeline in
`dags/example_astronauts.py`.

Embedding conventions: Python dictionaries keyed by strings (or ints) are
association lists carrying Python's insertion-order semantics
(`lookupAssoc` / `updateAssoc`); numeric values are rationals (`ℚ`) or
integers; nullable values are `Option`; the simulated random draws
(vitals, demographics) are arbitrary inputs, so properties are proved for
every possible draw.
-/

/-- Association-list lookup mirroring Python dictionary access: the first
entry whose key matches is returned, `none` when the key is absent. -/
def lookupAssoc {α β : Type} [DecidableEq α] : List (α × β) → α → Option β
  | [], _ => none
  | (k', v) :: rest, k => if k' = k then some v else lookupAssoc rest k

/-- Association-list update mirroring a Python dictionary assignment
computed from the previous value: an existing key keeps its position and
receives the new value, a fresh key is appended at the end (Python
dictionaries preserve insertion order). -/
def updateAssoc {α β : Type} [DecidableEq α] :
    List (α × β) → α → (Option β → β) → List (α × β)
  | [], k, f => [(k, f none)]
  | (k', v) :: rest, k, f =>
      if k' = k then (k', f (some v)) :: rest
      else (k', v) :: updateAssoc rest k f

/-- A raw astronaut record from the acquisition layer: a `name` and a
`craft` identifier (source: records consumed by `enrich_spacecraft_data`). -/
structure Astronaut where
  name : String
  craft : String
deriving DecidableEq

/-- A value stored in a spacecraft `history` mapping: the source mixes
strings, numbers and lists of strings in one dictionary. -/
inductive HistoryValue where
  | str (s : String)
  | num (q : ℚ)
  | strList (l : List String)
deriving DecidableEq

/-- Static spacecraft reference data, one entry of the `spacecraft_info`
mapping in `enrich_spacecraft_data`. -/
structure SpacecraftInfo where
  model : String
  type : String
  agencies : List String
  countries : List String
  launch_year : Option Int
  crew_capacity : Option Int
  orbital_speed_kmh : Option ℚ
  orbital_speed_mph : Option ℚ
  orbital_velocity_ms : Option ℚ
  altitude_km : Option ℚ
  orbital_period_min : Option ℚ
  history : List (String × HistoryValue)
deriving DecidableEq

/-- The spacecraft reference catalog `spacecraft_info` hard-coded in
`enrich_spacecraft_data` (source lines 89-205). -/
def spacecraft_info : List (String × SpacecraftInfo) :=
  [ ("ISS",
     { model := "International Space Station"
       type := "Space Station"
       agencies := ["NASA", "Roscosmos", "ESA", "JAXA", "CSA"]
       countries := ["USA", "Russia", "Europe", "Japan", "Canada"]
       launch_year := some 1998
       crew_capacity := some 7
       orbital_speed_kmh := some 27600
       orbital_speed_mph := some 17150
       orbital_velocity_ms := some 7660
       altitude_km := some 408
       orbital_period_min := some 92.68
       history :=
         [ ("first_module", .str "Zarya (launched Nov 20, 1998)")
         , ("first_crew", .str "Expedition 1 (Nov 2, 2000)")
         , ("assembly_period", .str "1998-2011")
         , ("continuous_occupation", .str "Since November 2, 2000 (20+ years)")
         , ("total_visitors", .str "Over 270 people from 20+ countries")
         , ("mass_kg", .num 420000)
         , ("pressurized_volume_m3", .num 916)
         , ("solar_array_area_m2", .num 2500)
         , ("cost_usd_billion", .num 150)
         , ("mission_goals", .strList
             [ "Scientific Research: Conduct experiments in microgravity, biology, physics, astronomy, and materials science"
             , "Technology Development: Test new technologies for deep space exploration"
             , "Human Health: Study long-term effects of space on human body and develop countermeasures"
             , "Earth Observation: Monitor climate change, natural disasters, and environmental conditions"
             , "International Cooperation: Foster peaceful collaboration between nations in space exploration"
             , "Commercial Opportunities: Support commercial space activities and research"
             , "Education and Outreach: Inspire future generations through space education programs" ])
         , ("notable_achievements", .strList
             [ "Longest continuously inhabited space station in history"
             , "Largest human-made structure in space"
             , "Platform for over 3,000 scientific experiments"
             , "International collaboration between 5 space agencies" ]) ] })
  , ("Tiangong",
     { model := "Tiangong Space Station (CSS)"
       type := "Space Station"
       agencies := ["CNSA"]
       countries := ["China"]
       launch_year := some 2021
       crew_capacity := some 6
       orbital_speed_kmh := some 27840
       orbital_speed_mph := some 17300
       orbital_velocity_ms := some 7733
       altitude_km := some 400
       orbital_period_min := some 91.6
       history :=
         [ ("first_module", .str "Tianhe core module (launched Apr 29, 2021)")
         , ("first_crew", .str "Shenzhou 12 (Jun 17, 2021)")
         , ("assembly_period", .str "2021-2022")
         , ("continuous_occupation", .str "Since June 2022")
         , ("total_visitors", .str "Multiple crews via Shenzhou missions")
         , ("mass_kg", .num 66000)
         , ("pressurized_volume_m3", .num 110)
         , ("solar_array_area_m2", .num 138)
         , ("cost_usd_billion", .num 11)
         , ("mission_goals", .strList
             [ "Space Science: Conduct research in space life science, biotechnology, and space medicine"
             , "Space Technology: Test and validate new technologies for future deep space missions"
             , "Space Applications: Develop applications for Earth observation and space resource utilization"
             , "Microgravity Experiments: Study material science and fluid physics in zero gravity"
             , "National Capability: Demonstrate China\x27s independent human spaceflight capability"
             , "Long-Duration Missions: Support 6-month crew rotations for extended research"
             , "International Collaboration: Welcome international partners and experiments" ])
         , ("notable_achievements", .strList
             [ "First modular space station built by China"
             , "Third operational space station after ISS"
             , "Features advanced life support systems"
             , "Open to international cooperation" ]) ] })
  , ("Shenzhou",
     { model := "Shenzhou Spacecraft"
       type := "Crew Vehicle"
       agencies := ["CNSA"]
       countries := ["China"]
       launch_year := some 1999
       crew_capacity := some 3
       orbital_speed_kmh := some 27840
       orbital_speed_mph := some 17300
       orbital_velocity_ms := some 7733
       altitude_km := some 400
       orbital_period_min := some 91.6
       history :=
         [ ("first_launch", .str "Shenzhou 1 (Nov 20, 1999, uncrewed)")
         , ("first_crewed", .str "Shenzhou 5 (Oct 15, 2003, Yang Liwei)")
         , ("total_missions", .str "17+ missions (as of 2024)")
         , ("based_on", .str "Russian Soyuz design with Chinese modifications")
         , ("mass_kg", .num 7840)
         , ("length_m", .num 9.25)
         , ("diameter_m", .num 2.8)
         , ("mission_goals", .strList
             [ "Crew Transportation: Safely transport taikonauts to and from Tiangong space station"
             , "Technology Demonstration: Prove Chinese capability for independent human spaceflight"
             , "Orbital Operations: Conduct solo orbital missions for testing and training"
             , "Rendezvous and Docking: Perfect automated and manual docking procedures"
             , "Spacewalk Support: Provide platform for extravehicular activities (EVAs)"
             , "Emergency Capability: Serve as emergency escape vehicle when docked to station"
             , "National Pride: Demonstrate China\x27s technological advancement in space exploration" ])
         , ("notable_achievements", .strList
             [ "Made China the 3rd country to independently launch humans to space"
             , "Successfully conducted China\x27s first spacewalk (Shenzhou 7, 2008)"
             , "Primary crew transport vehicle for Tiangong station"
             , "Reliable workhorse with perfect safety record" ]) ] }) ]

/-- The sentinel spacecraft record synthesized on a catalog miss: the
default argument of `spacecraft_info.get` in the source (lines 214-228). -/
def default_spacecraft (craft_name : String) : SpacecraftInfo :=
  { model := craft_name
    type := "Unknown"
    agencies := ["Unknown"]
    countries := ["Unknown"]
    launch_year := none
    crew_capacity := none
    orbital_speed_kmh := none
    orbital_speed_mph := none
    orbital_velocity_ms := none
    altitude_km := none
    orbital_period_min := none
    history := [] }

/-- An astronaut record after enrichment: the raw fields plus the
spacecraft information flattened in (source lines 231-246). -/
structure EnrichedAstronaut where
  name : String
  craft : String
  spacecraft_model : String
  spacecraft_type : String
  operating_agencies : List String
  operating_countries : List String
  launch_year : Option Int
  crew_capacity : Option Int
  orbital_speed_kmh : Option ℚ
  orbital_speed_mph : Option ℚ
  orbital_velocity_ms : Option ℚ
  altitude_km : Option ℚ
  orbital_period_min : Option ℚ
  history : List (String × HistoryValue)
deriving DecidableEq

/-- Enrichment of a single astronaut record: the loop body of
`enrich_spacecraft_data` (source lines 208-248).  The record is built
fresh (`astronaut.copy()` plus `update`); the input is not mutated. -/
def enrich_one (astronaut : Astronaut) : EnrichedAstronaut :=
  let spacecraft :=
    (lookupAssoc spacecraft_info astronaut.craft).getD
      (default_spacecraft astronaut.craft)
  { name := astronaut.name
    craft := astronaut.craft
    spacecraft_model := spacecraft.model
    spacecraft_type := spacecraft.type
    operating_agencies := spacecraft.agencies
    operating_countries := spacecraft.countries
    launch_year := spacecraft.launch_year
    crew_capacity := spacecraft.crew_capacity
    orbital_speed_kmh := spacecraft.orbital_speed_kmh
    orbital_speed_mph := spacecraft.orbital_speed_mph
    orbital_velocity_ms := spacecraft.orbital_velocity_ms
    altitude_km := spacecraft.altitude_km
    orbital_period_min := spacecraft.orbital_period_min
    history := spacecraft.history }

/-- The task `enrich_spacecraft_data` (source lines 83-253): each input
record is enriched in order and appended to the output list. -/
def enrich_spacecraft_data (astronauts : List Astronaut) : List EnrichedAstronaut :=
  astronauts.map enrich_one

/-- C5: for every astronaut record whose craft is not a key of the
spacecraft reference catalog, `enrich_spacecraft_data` produces an
enriched record with `spacecraft_model` equal to the raw craft string,
`spacecraft_type = "Unknown"`, operating agencies and countries both the
single-element list `["Unknown"]`, all numeric catalog fields `none`, and
an empty history; the lookup itself is a total function and never fails. -/
theorem c5_unknown_craft_sentinel (a : Astronaut)
    (h : a.craft ∉ spacecraft_info.map Prod.fst) :
    (enrich_one a).spacecraft_model = a.craft ∧
    (enrich_one a).spacecraft_type = "Unknown" ∧
    (enrich_one a).operating_agencies = ["Unknown"] ∧
    (enrich_one a).operating_countries = ["Unknown"] ∧
    (enrich_one a).launch_year = none ∧
    (enrich_one a).crew_capacity = none ∧
    (enrich_one a).orbital_speed_kmh = none ∧
    (enrich_one a).orbital_speed_mph = none ∧
    (enrich_one a).orbital_velocity_ms = none ∧
    (enrich_one a).altitude_km = none ∧
    (enrich_one a).orbital_period_min = none ∧
    (enrich_one a).history = [] := by
  obtain ⟨h1, h2, h3⟩ :
      a.craft ≠ "ISS" ∧ a.craft ≠ "Tiangong" ∧ a.craft ≠ "Shenzhou" := by
    simpa [spacecraft_info] using h
  simp [enrich_one, lookupAssoc, spacecraft_info, default_spacecraft,
    Ne.symm h1, Ne.symm h2, Ne.symm h3]

/-- Witness for C5: the unknown craft "Mir" resolves to the sentinel. -/
theorem c5_witness :
    (enrich_one ⟨"B", "Mir"⟩).spacecraft_model = "Mir" ∧
    (enrich_one ⟨"B", "Mir"⟩).spacecraft_type = "Unknown" ∧
    (enrich_one ⟨"B", "Mir"⟩).operating_agencies = ["Unknown"] ∧
    (enrich_one ⟨"B", "Mir"⟩).operating_countries = ["Unknown"] ∧
    (enrich_one ⟨"B", "Mir"⟩).launch_year = none ∧
    (enrich_one ⟨"B", "Mir"⟩).crew_capacity = none ∧
    (enrich_one ⟨"B", "Mir"⟩).orbital_speed_kmh = none ∧
    (enrich_one ⟨"B", "Mir"⟩).orbital_speed_mph = none ∧
    (enrich_one ⟨"B", "Mir"⟩).orbital_velocity_ms = none ∧
    (enrich_one ⟨"B", "Mir"⟩).altitude_km = none ∧
    (enrich_one ⟨"B", "Mir"⟩).orbital_period_min = none ∧
    (enrich_one ⟨"B", "Mir"⟩).history = [] :=
  c5_unknown_craft_sentinel ⟨"B", "Mir"⟩ (by decide)

/-- C6: enrichment returns a list of the same length, in the same order,
the i-th output enriched from the i-th input (one-to-one, no filtering),
and the raw `name`/`craft` data of each input record is preserved
unchanged in the corresponding output. -/
theorem c6_enrich_shape (astronauts : List Astronaut) :
    (enrich_spacecraft_data astronauts).length = astronauts.length ∧
    (∀ i : ℕ, (enrich_spacecraft_data astronauts)[i]? =
      (astronauts[i]?).map enrich_one) ∧
    (∀ i : ℕ, ((enrich_spacecraft_data astronauts)[i]?).map
        (fun e => (e.name, e.craft)) =
      (astronauts[i]?).map (fun a => (a.name, a.craft))) := by
  refine ⟨by simp [enrich_spacecraft_data], fun i => ?_, fun i => ?_⟩
  · simp [enrich_spacecraft_data]
  · cases h : astronauts[i]? with
    | none => simp [enrich_spacecraft_data, h]
    | some a => simp [enrich_spacecraft_data, h, enrich_one]

/-- Per-astronaut mission distance result: the dictionary value built in
`calculate_mission_distance` (source lines 580-612). -/
structure MissionDistance where
  spacecraft : String
  orbital_speed_kmh : Option ℚ
  mission_days : Int
  total_distance_km : Option ℚ
  total_distance_miles : Option ℚ
  orbits_completed : Option ℚ
  distance_per_day_km : Option ℚ
deriving DecidableEq

/-- The all-null result produced when the orbital speed is absent or zero
(Python falsiness of `orbital_speed_kmh`), source lines 604-612. -/
def mission_distance_no_data (e : EnrichedAstronaut) : MissionDistance :=
  { spacecraft := e.craft
    orbital_speed_kmh := none
    mission_days := 180
    total_distance_km := none
    total_distance_miles := none
    orbits_completed := none
    distance_per_day_km := none }

/-- The loop body of `calculate_mission_distance` (source lines 563-613)
with the source's fixed `estimated_mission_days = 180`.  Python's
`if orbital_speed_kmh:` and `if orbital_period_min:` are falsy both for
`None` and for `0`, which the two explicit zero tests reproduce; note the
source initializes `orbits_completed = 0` before the period test. -/
def mission_distance_one (e : EnrichedAstronaut) : MissionDistance :=
  match e.orbital_speed_kmh with
  | none => mission_distance_no_data e
  | some speed =>
    if speed = 0 then mission_distance_no_data e
    else
      let hours_in_mission : ℚ := 180 * 24
      let total_distance_km := speed * hours_in_mission
      let orbits_completed : ℚ :=
        match e.orbital_period_min with
        | none => 0
        | some p => if p = 0 then 0 else (180 * 24 * 60 : ℚ) / p
      { spacecraft := e.craft
        orbital_speed_kmh := some speed
        mission_days := 180
        total_distance_km := some total_distance_km
        total_distance_miles := some (total_distance_km * 0.621371)
        orbits_completed := some orbits_completed
        distance_per_day_km := some (total_distance_km / 180) }

/-- The task `calculate_mission_distance` (source lines 547-616): a
dictionary keyed by astronaut name, written in input order. -/
def calculate_mission_distance (enriched_astronauts : List EnrichedAstronaut) :
    List (String × MissionDistance) :=
  enriched_astronauts.foldl
    (fun d e => updateAssoc d e.name (fun _ => mission_distance_one e)) []

/-- C4: for every enriched astronaut (with the source's fixed 180 mission
days), the distance fields are null exactly when the orbital speed is
null, and when the speed is known the total distance is
`speed * mission_days * 24` and the per-day distance is `total / 180`. -/
theorem c4_mission_distance (a : Astronaut) :
    ((mission_distance_one (enrich_one a)).total_distance_km = none ↔
      (enrich_one a).orbital_speed_kmh = none) ∧
    ((mission_distance_one (enrich_one a)).distance_per_day_km = none ↔
      (enrich_one a).orbital_speed_kmh = none) ∧
    (∀ s : ℚ, (enrich_one a).orbital_speed_kmh = some s →
      (mission_distance_one (enrich_one a)).total_distance_km =
        some (s * 180 * 24) ∧
      (mission_distance_one (enrich_one a)).distance_per_day_km =
        some (s * 180 * 24 / 180)) := by
  have hspeed : (enrich_one a).orbital_speed_kmh = none ∨
      (enrich_one a).orbital_speed_kmh = some 27600 ∨
      (enrich_one a).orbital_speed_kmh = some 27840 := by
    by_cases h1 : "ISS" = a.craft
    · simp [enrich_one, lookupAssoc, spacecraft_info, h1]
    · by_cases h2 : "Tiangong" = a.craft
      · simp [enrich_one, lookupAssoc, spacecraft_info, h1, h2]
      · by_cases h3 : "Shenzhou" = a.craft
        · simp [enrich_one, lookupAssoc, spacecraft_info, h1, h2, h3]
        · simp [enrich_one, lookupAssoc, spacecraft_info, default_spacecraft,
            h1, h2, h3]
  rcases hspeed with h | h | h
  · simp [mission_distance_one, mission_distance_no_data, h]
  · refine ⟨by norm_num [mission_distance_one, h]; simp,
      by norm_num [mission_distance_one, h]; simp, ?_⟩
    intro s hs
    have hs' : s = 27600 := by rw [h] at hs; exact (Option.some.inj hs).symm
    subst hs'
    constructor <;> norm_num [mission_distance_one, h]
  · refine ⟨by norm_num [mission_distance_one, h]; simp,
      by norm_num [mission_distance_one, h]; simp, ?_⟩
    intro s hs
    have hs' : s = 27840 := by rw [h] at hs; exact (Option.some.inj hs).symm
    subst hs'
    constructor <;> norm_num [mission_distance_one, h]

/-- Witness for C4: an ISS astronaut's computed distances. -/
theorem c4_witness :
    (mission_distance_one (enrich_one ⟨"A", "ISS"⟩)).total_distance_km =
      some (27600 * 180 * 24) ∧
    (mission_distance_one (enrich_one ⟨"A", "ISS"⟩)).distance_per_day_km =
      some (27600 * 180 * 24 / 180) :=
  (c4_mission_distance ⟨"A", "ISS"⟩).2.2 27600 rfl

/-- An enriched record whose orbital speed is known while the orbital
period is unknown.  `calculate_mission_distance` reads its inputs with
`.get`, so any combination of present and absent fields can reach it. -/
def speed_without_period : EnrichedAstronaut :=
  { name := "A"
    craft := "Soyuz"
    spacecraft_model := "Soyuz"
    spacecraft_type := "Unknown"
    operating_agencies := ["Unknown"]
    operating_countries := ["Unknown"]
    launch_year := none
    crew_capacity := none
    orbital_speed_kmh := some 27600
    orbital_speed_mph := none
    orbital_velocity_ms := none
    altitude_km := none
    orbital_period_min := none
    history := [] }

/-- Counterexample to C2 as stated: for an astronaut whose orbital speed
is known (27600) but whose orbital period is unknown, the source
initializes `orbits_completed = 0` and the period guard never overwrites
it, so the output field is the number `0`, not null. -/
theorem c2_counterexample :
    speed_without_period.orbital_speed_kmh = some 27600 ∧
    speed_without_period.orbital_period_min = none ∧
    (mission_distance_one speed_without_period).orbits_completed = some 0 ∧
    (mission_distance_one speed_without_period).orbits_completed ≠ none := by
  refine ⟨rfl, rfl, ?_, ?_⟩ <;>
    · norm_num [mission_distance_one, speed_without_period]
      try simp

/-- C2 amended: for every astronaut whose orbital speed is known and
nonzero but whose orbital period is unknown, the `orbits_completed`
field of the result is the number `0` (not null). -/
theorem c2_amended_orbits_zero (e : EnrichedAstronaut) (s : ℚ)
    (hs : e.orbital_speed_kmh = some s) (hnz : s ≠ 0)
    (hp : e.orbital_period_min = none) :
    (mission_distance_one e).orbits_completed = some 0 := by
  simp [mission_distance_one, hs, hnz, hp]

/-- Witness for the amended C2 at a concrete record. -/
theorem c2_witness :
    (mission_distance_one speed_without_period).orbits_completed = some 0 :=
  c2_amended_orbits_zero speed_without_period 27600 rfl (by norm_num) rfl

/-- The WMO weather-code table hard-coded in
`summarize_weather_conditions` (source lines 929-954). -/
def weather_code_descriptions : List (Int × String) :=
  [ (0, "Clear sky")
  , (1, "Mainly clear")
  , (2, "Partly cloudy")
  , (3, "Overcast")
  , (45, "Fog")
  , (48, "Depositing rime fog")
  , (51, "Light drizzle")
  , (53, "Moderate drizzle")
  , (55, "Dense drizzle")
  , (61, "Slight rain")
  , (63, "Moderate rain")
  , (65, "Heavy rain")
  , (71, "Slight snow fall")
  , (73, "Moderate snow fall")
  , (75, "Heavy snow fall")
  , (77, "Snow grains")
  , (80, "Slight rain showers")
  , (81, "Moderate rain showers")
  , (82, "Violent rain showers")
  , (85, "Slight snow showers")
  , (86, "Heavy snow showers")
  , (95, "Thunderstorm")
  , (96, "Thunderstorm with slight hail")
  , (99, "Thunderstorm with heavy hail") ]

/-- Weather-code decoding in `summarize_weather_conditions` (source lines
956-959): a table lookup with a formatted fallback for unknown codes. -/
def decode_weather_code (code : Int) : String :=
  (lookupAssoc weather_code_descriptions code).getD
    ("Unknown (code: " ++ toString code ++ ")")

/-- A key absent from the first components of an association list is not
found by `lookupAssoc`. -/
theorem lookupAssoc_eq_none {α β : Type} [DecidableEq α]
    (d : List (α × β)) (k : α) (h : k ∉ d.map Prod.fst) :
    lookupAssoc d k = none := by
  induction d with
  | nil => rfl
  | cons p rest ih =>
    obtain ⟨k', v⟩ := p
    simp only [List.map_cons, List.mem_cons, not_or] at h
    simp [lookupAssoc, Ne.symm h.1, ih h.2]

/-- C9: weather-code decoding is a total function over the integers (it
is defined for every `Int` by construction), code 0 decodes to
"Clear sky", every code in the fixed WMO table decodes to its table
entry, and every unrecognized code `c` decodes to `"Unknown (code: c)"`,
in particular 999. -/
theorem c9_decode_weather_code :
    decode_weather_code 0 = "Clear sky" ∧
    (∀ c d, (c, d) ∈ weather_code_descriptions → decode_weather_code c = d) ∧
    (∀ c : Int, c ∉ weather_code_descriptions.map Prod.fst →
      decode_weather_code c = "Unknown (code: " ++ toString c ++ ")") ∧
    decode_weather_code 999 = "Unknown (code: 999)" := by
  refine ⟨rfl, ?_, ?_, rfl⟩
  · intro c d h
    fin_cases h <;> rfl
  · intro c h
    unfold decode_weather_code
    rw [lookupAssoc_eq_none _ _ h]
    rfl

/-- Witness for C9: a known code and an unknown code decoded concretely. -/
theorem c9_witness :
    decode_weather_code 45 = "Fog" ∧
    decode_weather_code 999 = "Unknown (code: " ++ toString (999 : Int) ++ ")" :=
  ⟨c9_decode_weather_code.2.1 45 "Fog" (by simp [weather_code_descriptions]),
   c9_decode_weather_code.2.2.1 999 (by decide)⟩

/-- The five simulated vitals drawn in `evaluate_health_metrics` (source
lines 645-649).  Here they are arbitrary inputs, so every theorem below
covers every possible draw. -/
structure Vitals where
  oxygen_saturation : Int
  heart_rate : Int
  systolic_bp : Int
  diastolic_bp : Int
  body_temp : ℚ
deriving DecidableEq

/-- Oxygen-saturation contribution to the risk score (source lines
655-661): below 90 adds 3, from 90 to 94 adds 2, otherwise 0. -/
def oxygen_risk_points (o : Int) : ℕ :=
  if o < 90 then 3 else if o < 95 then 2 else 0

/-- Heart-rate contribution to the risk score (source lines 663-669). -/
def heart_risk_points (hr : Int) : ℕ :=
  if hr > 120 ∨ hr < 50 then 3 else if hr > 100 ∨ hr < 60 then 1 else 0

/-- Blood-pressure contribution to the risk score (source lines 671-677). -/
def bp_risk_points (sys dia : Int) : ℕ :=
  if sys > 140 ∨ sys < 90 then 2 else if sys > 130 ∨ dia > 85 then 1 else 0

/-- Body-temperature contribution to the risk score (source lines 679-685). -/
def temp_risk_points (t : ℚ) : ℕ :=
  if t > 38.0 ∨ t < 36.0 then 2 else if t > 37.5 ∨ t < 36.5 then 1 else 0

/-- The accumulated `risk_score` of `evaluate_health_metrics` (source
lines 652-685): the four vital evaluations run one after another and each
adds its points to the running score, so the total is their sum. -/
def risk_score (v : Vitals) : ℕ :=
  oxygen_risk_points v.oxygen_saturation + heart_risk_points v.heart_rate +
    bp_risk_points v.systolic_bp v.diastolic_bp + temp_risk_points v.body_temp

/-- The `health_status` classification of the total score (source lines
687-699). -/
def health_status (v : Vitals) : String :=
  if risk_score v = 0 then "Normal"
  else if risk_score v ≤ 2 then "Monitor"
  else if risk_score v ≤ 4 then "At Risk"
  else "Critical"

/-- The accumulated `risk_factors` list (source lines 652-685), appended
in the source's evaluation order. -/
def risk_factors (v : Vitals) : List String :=
  (if v.oxygen_saturation < 90 then ["Critical oxygen level"]
   else if v.oxygen_saturation < 95 then ["Low oxygen saturation"] else []) ++
  (if v.heart_rate > 120 ∨ v.heart_rate < 50 then ["Critical heart rate"]
   else if v.heart_rate > 100 ∨ v.heart_rate < 60 then
     ["Elevated/Low heart rate"] else []) ++
  (if v.systolic_bp > 140 ∨ v.systolic_bp < 90 then ["Abnormal blood pressure"]
   else if v.systolic_bp > 130 ∨ v.diastolic_bp > 85 then
     ["Slightly elevated blood pressure"] else []) ++
  (if v.body_temp > 38.0 ∨ v.body_temp < 36.0 then ["Abnormal body temperature"]
   else if v.body_temp > 37.5 ∨ v.body_temp < 36.5 then
     ["Slight temperature variation"] else [])

/-- One entry of the dictionary returned by `evaluate_health_metrics`
(source lines 701-711). -/
structure HealthEval where
  spacecraft : String
  oxygen_saturation : Int
  heart_rate : Int
  systolic_bp : Int
  diastolic_bp : Int
  body_temp : ℚ
  risk_score : ℕ
  health_status : String
  risk_factors : List String
deriving DecidableEq

/-- The task `evaluate_health_metrics` (source lines 619-738) with the
random draw abstracted into the parameter `vitals_of`: a dictionary keyed
by astronaut name holding each evaluation. -/
def evaluate_health_metrics (astronauts : List Astronaut)
    (vitals_of : Astronaut → Vitals) : List (String × HealthEval) :=
  astronauts.foldl
    (fun d a => updateAssoc d a.name (fun _ =>
      { spacecraft := a.craft
        oxygen_saturation := (vitals_of a).oxygen_saturation
        heart_rate := (vitals_of a).heart_rate
        systolic_bp := (vitals_of a).systolic_bp
        diastolic_bp := (vitals_of a).diastolic_bp
        body_temp := (vitals_of a).body_temp
        risk_score := risk_score (vitals_of a)
        health_status := health_status (vitals_of a)
        risk_factors := risk_factors (vitals_of a) })) []

/-- Status banding exactly as the specification words it: score 0 is
Normal, 1-2 Monitor, 3-4 At Risk, 5 or more Critical. -/
def spec_status_band (r : ℕ) : String :=
  if r = 0 then "Normal"
  else if 1 ≤ r ∧ r ≤ 2 then "Monitor"
  else if 3 ≤ r ∧ r ≤ 4 then "At Risk"
  else "Critical"

/-- C3: for every vitals input, the health status is determined solely by
the total risk score through the fixed thresholds: 0 gives Normal, 1-2
Monitor, 3-4 At Risk, and 5 or more Critical. -/
theorem c3_status_solely_from_risk_score (v : Vitals) :
    health_status v = spec_status_band (risk_score v) := by
  unfold health_status spec_status_band
  split_ifs <;> first | rfl | omega

/-- Oxygen banding as the specification table claims it (its "+1 mild"
column): at least 95 adds 0, from 90 to 94 adds 1, below 90 adds 3. -/
def spec_oxygen_points (o : Int) : ℕ :=
  if 95 ≤ o then 0 else if 90 ≤ o then 1 else 3

/-- Counterexample to C1 as stated: with oxygen saturation 92 and all
other vitals in their normal bands, the code's risk score is 2, while the
claimed table (mild oxygen band adds 1 point) would give 1. -/
theorem c1_counterexample :
    risk_score ⟨92, 80, 110, 80, 37⟩ = 2 ∧
    spec_oxygen_points 92 + heart_risk_points 80 + bp_risk_points 110 80 +
      temp_risk_points 37 = 1 := by
  constructor <;>
    norm_num [risk_score, spec_oxygen_points, oxygen_risk_points,
      heart_risk_points, bp_risk_points, temp_risk_points]

/-- C1 amended: the oxygen-saturation vital contributes exactly 0 points
when at least 95, exactly 2 points (not 1) in the 90-94 band, and exactly
3 points below 90, and the total risk score decomposes as this oxygen
contribution plus the contributions of the other three vitals. -/
theorem c1_amended_oxygen_points (v : Vitals) :
    risk_score v = oxygen_risk_points v.oxygen_saturation +
      (heart_risk_points v.heart_rate +
        bp_risk_points v.systolic_bp v.diastolic_bp +
        temp_risk_points v.body_temp) ∧
    (95 ≤ v.oxygen_saturation → oxygen_risk_points v.oxygen_saturation = 0) ∧
    (90 ≤ v.oxygen_saturation ∧ v.oxygen_saturation ≤ 94 →
      oxygen_risk_points v.oxygen_saturation = 2) ∧
    (v.oxygen_saturation < 90 → oxygen_risk_points v.oxygen_saturation = 3) := by
  refine ⟨by unfold risk_score; ring, ?_, ?_, ?_⟩ <;>
    · intro h
      unfold oxygen_risk_points
      split_ifs <;> omega

/-- Witness for the amended C1: oxygen saturation 92 sits in the mild
band and contributes 2 points. -/
theorem c1_witness :
    risk_score ⟨92, 80, 110, 80, 37⟩ =
      oxygen_risk_points 92 +
        (heart_risk_points 80 + bp_risk_points 110 80 + temp_risk_points 37) ∧
    oxygen_risk_points 92 = 2 :=
  ⟨(c1_amended_oxygen_points ⟨92, 80, 110, 80, 37⟩).1,
   (c1_amended_oxygen_points ⟨92, 80, 110, 80, 37⟩).2.2.1 (by decide)⟩

/-- First-seen deduplication: the distinct elements of a list in order of
first occurrence — exactly the key order of a Python dictionary filled by
iterating over the list. -/
def firstSeen : List String → List String
  | [] => []
  | x :: xs => x :: (firstSeen xs).filter (fun y => y ≠ x)

/-- An element survives first-seen deduplication exactly when it occurs
in the list. -/
theorem mem_firstSeen (l : List String) (a : String) :
    a ∈ firstSeen l ↔ a ∈ l := by
  induction l with
  | nil => simp [firstSeen]
  | cons x xs ih =>
    by_cases hax : a = x
    · subst hax; simp [firstSeen]
    · simp [firstSeen, List.mem_filter, hax, ih]

/-- First-seen deduplication yields a duplicate-free list. -/
theorem nodup_firstSeen (l : List String) : (firstSeen l).Nodup := by
  induction l with
  | nil => simp [firstSeen]
  | cons x xs ih =>
    refine List.nodup_cons.2 ⟨?_, ih.filter _⟩
    simp [List.mem_filter]

/-- Appending one element extends the first-seen list only when the
element is new. -/
theorem firstSeen_append_singleton (l : List String) (x : String) :
    firstSeen (l ++ [x]) =
      if x ∈ l then firstSeen l else firstSeen l ++ [x] := by
  induction l with
  | nil => simp [firstSeen]
  | cons y ys ih =>
    by_cases hxy : x = y
    · subst hxy
      by_cases hx : x ∈ ys
      · simp [firstSeen, ih, hx, List.filter_append]
      · simp [firstSeen, ih, hx, List.filter_append]
    · by_cases hx : x ∈ ys
      · simp [firstSeen, ih, hx, hxy, List.filter_append]
      · simp [firstSeen, ih, hx, hxy, List.filter_append, Ne.symm hxy]

/-- First-seen deduplication never lengthens a list. -/
theorem firstSeen_length_le (l : List String) :
    (firstSeen l).length ≤ l.length := by
  induction l with
  | nil => simp [firstSeen]
  | cons x xs ih =>
    have := List.length_filter_le (fun y => decide (y ≠ x)) (firstSeen xs)
    simp only [firstSeen, List.length_cons]
    omega

/-- A duplicate-free list is unchanged by first-seen deduplication. -/
theorem firstSeen_eq_self_of_nodup (l : List String) (h : l.Nodup) :
    firstSeen l = l := by
  induction l with
  | nil => rfl
  | cons x xs ih =>
    rcases List.nodup_cons.1 h with ⟨hx, hxs⟩
    rw [firstSeen, ih hxs, List.filter_eq_self.2]
    intro a ha
    have hne : a ≠ x := fun haeq => hx (haeq ▸ ha)
    simpa using hne

/-- Filtering out an element that is present strictly shortens a list. -/
theorem length_filter_lt_of_mem {p : String → Bool} {l : List String}
    {a : String} (ha : a ∈ l) (hpa : p a = false) :
    (l.filter p).length < l.length := by
  induction l with
  | nil => cases ha
  | cons x xs ih =>
    rcases List.mem_cons.1 ha with rfl | ha'
    · have hle := List.length_filter_le p xs
      rw [List.filter_cons, if_neg (by simp [hpa])]
      simp only [List.length_cons]
      omega
    · by_cases hpx : p x = true
      · have := ih ha'
        rw [List.filter_cons, if_pos hpx]
        simp only [List.length_cons]
        omega
      · have := ih ha'
        rw [List.filter_cons, if_neg hpx]
        simp only [List.length_cons]
        omega

/-- A list with a duplicate strictly shrinks under first-seen
deduplication. -/
theorem firstSeen_length_lt_of_not_nodup (l : List String)
    (h : ¬ l.Nodup) : (firstSeen l).length < l.length := by
  induction l with
  | nil => exact absurd List.nodup_nil h
  | cons x xs ih =>
    simp only [firstSeen, List.length_cons]
    by_cases hx : x ∈ xs
    · have hmem : x ∈ firstSeen xs := (mem_firstSeen xs x).2 hx
      have hlt := @length_filter_lt_of_mem (fun y => decide (y ≠ x))
        (firstSeen xs) x hmem (by simp)
      have hle := firstSeen_length_le xs
      omega
    · have hnd : ¬ xs.Nodup := fun hnd => h (List.nodup_cons.2 ⟨hx, hnd⟩)
      have h1 := ih hnd
      have h2 := List.length_filter_le (fun y => decide (y ≠ x)) (firstSeen xs)
      omega

/-- Updating a key leaves the key sequence unchanged when the key is
present and appends it otherwise. -/
theorem keys_updateAssoc {α β : Type} [DecidableEq α]
    (d : List (α × β)) (k : α) (f : Option β → β) :
    (updateAssoc d k f).map Prod.fst =
      if k ∈ d.map Prod.fst then d.map Prod.fst
      else d.map Prod.fst ++ [k] := by
  induction d with
  | nil => simp [updateAssoc]
  | cons p rest ih =>
    obtain ⟨k', v⟩ := p
    by_cases hk : k' = k
    · subst hk; simp [updateAssoc]
    · by_cases hm : k ∈ rest.map Prod.fst
      · simp [updateAssoc, hk, ih, hm, Ne.symm hk]
      · simp [updateAssoc, hk, ih, hm, Ne.symm hk]

/-- Looking up the key just written yields the newly computed value. -/
theorem lookupAssoc_updateAssoc_self {α β : Type} [DecidableEq α]
    (d : List (α × β)) (k : α) (f : Option β → β) :
    lookupAssoc (updateAssoc d k f) k = some (f (lookupAssoc d k)) := by
  induction d with
  | nil => simp [updateAssoc, lookupAssoc]
  | cons p rest ih =>
    obtain ⟨k', v⟩ := p
    by_cases hk : k' = k
    · subst hk; simp [updateAssoc, lookupAssoc]
    · simp [updateAssoc, lookupAssoc, hk, ih]

/-- Writing one key does not disturb lookups of any other key. -/
theorem lookupAssoc_updateAssoc_ne {α β : Type} [DecidableEq α]
    (d : List (α × β)) (k k₁ : α) (f : Option β → β) (h : k₁ ≠ k) :
    lookupAssoc (updateAssoc d k f) k₁ = lookupAssoc d k₁ := by
  induction d with
  | nil => simp [updateAssoc, lookupAssoc, Ne.symm h]
  | cons p rest ih =>
    obtain ⟨k', v⟩ := p
    by_cases hk : k' = k
    · subst hk; simp [updateAssoc, lookupAssoc, Ne.symm h]
    · by_cases hk1 : k' = k₁
      · subst hk1; simp [updateAssoc, lookupAssoc, hk]
      · simp [updateAssoc, lookupAssoc, hk, hk1, ih]

/-- The keys of a dictionary built by folding `updateAssoc` over a list
are the first-seen distinct keys of the list, in order. -/
theorem keys_foldl_updateAssoc {ι β : Type} (key : ι → String)
    (f : ι → Option β → β) (es : List ι) :
    ((es.foldl (fun d e => updateAssoc d (key e) (f e)) []).map Prod.fst) =
      firstSeen (es.map key) := by
  induction es using List.reverseRecOn with
  | nil => rfl
  | append_singleton es e ih =>
    rw [List.foldl_append, List.map_append, List.foldl_cons, List.foldl_nil]
    simp only [List.map_cons, List.map_nil]
    rw [firstSeen_append_singleton, keys_updateAssoc, ih]
    by_cases hm : key e ∈ es.map key
    · simp [hm, (mem_firstSeen _ _).2 hm]
    · have hnm : key e ∉ firstSeen (es.map key) :=
        fun hc => hm ((mem_firstSeen _ _).1 hc)
      simp [hm, hnm]

/-- The task `filter_astronauts_by_craft` (source lines 496-522): groups
astronaut names into a dictionary keyed by craft, appending each name to
its craft's list in input order. -/
def filter_astronauts_by_craft (astronauts : List Astronaut) :
    List (String × List String) :=
  astronauts.foldl
    (fun g a => updateAssoc g a.craft (fun o => o.getD [] ++ [a.name])) []

/-- The task `map_spacecraft_assignments` (source lines 525-544): the
same grouping computation as `filter_astronauts_by_craft`, repeated
verbatim in the source. -/
def map_spacecraft_assignments (astronauts : List Astronaut) :
    List (String × List String) :=
  astronauts.foldl
    (fun g a => updateAssoc g a.craft (fun o => o.getD [] ++ [a.name])) []

/-- Looking up a craft in the grouped dictionary yields exactly the names
of the astronauts on that craft, in input order. -/
theorem lookup_filter_astronauts_by_craft (astronauts : List Astronaut)
    (c : String) :
    lookupAssoc (filter_astronauts_by_craft astronauts) c =
      if astronauts.filter (fun a => a.craft = c) = [] then none
      else some ((astronauts.filter (fun a => a.craft = c)).map
        Astronaut.name) := by
  induction astronauts using List.reverseRecOn with
  | nil => simp [filter_astronauts_by_craft, lookupAssoc]
  | append_singleton as a ih =>
    unfold filter_astronauts_by_craft at ih ⊢
    rw [List.foldl_append, List.foldl_cons, List.foldl_nil,
      List.filter_append]
    by_cases hc : a.craft = c
    · subst hc
      rw [lookupAssoc_updateAssoc_self, ih]
      by_cases hfe : as.filter (fun x => x.craft = a.craft) = []
      · simp [hfe]
      · simp [hfe]
    · rw [lookupAssoc_updateAssoc_ne _ _ _ _ (fun hh => hc hh.symm), ih]
      simp [hc]

/-- C8: grouping by craft returns a mapping whose keys are the distinct
craft values in first-seen order, where each craft maps to the names of
exactly the astronauts on that craft in input order; and the two source
functions that implement it compute the same mapping. -/
theorem c8_group_by_craft (astronauts : List Astronaut) :
    (filter_astronauts_by_craft astronauts).map Prod.fst =
      firstSeen (astronauts.map Astronaut.craft) ∧
    (∀ c : String,
      lookupAssoc (filter_astronauts_by_craft astronauts) c =
        if astronauts.filter (fun a => a.craft = c) = [] then none
        else some ((astronauts.filter (fun a => a.craft = c)).map
          Astronaut.name)) ∧
    map_spacecraft_assignments astronauts =
      filter_astronauts_by_craft astronauts :=
  ⟨keys_foldl_updateAssoc Astronaut.craft _ astronauts,
   lookup_filter_astronauts_by_craft astronauts, rfl⟩

/-- The dictionary built by `calculate_mission_distance` keeps, for each
name, the result computed from the last input record bearing that name. -/
theorem lookup_calculate_mission_distance (es : List EnrichedAstronaut)
    (n : String) :
    lookupAssoc (calculate_mission_distance es) n =
      ((es.filter (fun e => e.name = n)).getLast?).map
        mission_distance_one := by
  induction es using List.reverseRecOn with
  | nil => simp [calculate_mission_distance, lookupAssoc]
  | append_singleton es e ih =>
    unfold calculate_mission_distance at ih ⊢
    rw [List.foldl_append, List.foldl_cons, List.foldl_nil,
      List.filter_append]
    by_cases hn : e.name = n
    · subst hn
      rw [lookupAssoc_updateAssoc_self]
      simp
    · rw [lookupAssoc_updateAssoc_ne _ _ _ _ (fun hh => hn hh.symm), ih]
      simp [hn]

/-- C10: `calculate_mission_distance` returns a mapping keyed by
astronaut name, so a later record with a duplicate name overwrites the
earlier one (each name maps to the result of its last record), the
output size equals the input size exactly when all names are distinct,
and with a duplicate name the output has strictly fewer entries than the
input. -/
theorem c10_mission_distance_keyed_by_name (es : List EnrichedAstronaut) :
    (∀ n : String,
      lookupAssoc (calculate_mission_distance es) n =
        ((es.filter (fun e => e.name = n)).getLast?).map
          mission_distance_one) ∧
    ((calculate_mission_distance es).length = es.length ↔
      (es.map EnrichedAstronaut.name).Nodup) ∧
    (¬ (es.map EnrichedAstronaut.name).Nodup →
      (calculate_mission_distance es).length < es.length) := by
  have hkeys : (calculate_mission_distance es).map Prod.fst =
      firstSeen (es.map EnrichedAstronaut.name) :=
    keys_foldl_updateAssoc EnrichedAstronaut.name _ es
  have hlen : (calculate_mission_distance es).length =
      (firstSeen (es.map EnrichedAstronaut.name)).length := by
    rw [← hkeys, List.length_map]
  have hmaplen : (es.map EnrichedAstronaut.name).length = es.length :=
    List.length_map es EnrichedAstronaut.name
  refine ⟨lookup_calculate_mission_distance es, ?_, ?_⟩
  · constructor
    · intro hlen2
      by_contra hnd
      have := firstSeen_length_lt_of_not_nodup _ hnd
      omega
    · intro hnd
      rw [hlen, firstSeen_eq_self_of_nodup _ hnd, hmaplen]
  · intro hnd
    have := firstSeen_length_lt_of_not_nodup _ hnd
    omega

/-- Witness for C10: two records sharing the name "A" collapse to a
single dictionary entry, strictly fewer than the two inputs. -/
theorem c10_witness :
    (calculate_mission_distance
      [enrich_one ⟨"A", "ISS"⟩, enrich_one ⟨"A", "Tiangong"⟩]).length < 2 :=
  (c10_mission_distance_keyed_by_name
    [enrich_one ⟨"A", "ISS"⟩, enrich_one ⟨"A", "Tiangong"⟩]).2.2
    (by simp [enrich_one])

/-- A crew member with the simulated demographic attributes drawn in
`analyze_team_diversity` (source lines 769-776); the random draw is an
arbitrary input here. -/
structure CrewMember where
  name : String
  craft : String
  gender : String
  nationality : String
  experience_level : String
deriving DecidableEq

/-- Category counting: the dictionaries `gender_counts`,
`nationality_counts` and `experience_counts` built in
`analyze_team_diversity` (source lines 797-828). -/
def category_counts (values : List String) : List (String × ℕ) :=
  values.foldl (fun c g => updateAssoc c g (fun o => o.getD 0 + 1)) []

/-- One diversity score (source lines 804-828): one minus the sum of the
squared category shares, computed from the category counts. -/
def diversity_score (values : List String) (crew_size : ℕ) : ℚ :=
  1 - ((category_counts values).map
    (fun p => ((p.2 : ℚ) / crew_size) ^ 2)).sum

/-- The numeric part of the diversity report of one crew (source lines
793-875; the source additionally rounds the stored copies to three
decimals for reporting, which is outside the computation modelled here). -/
structure DiversityReport where
  crew_size : ℕ
  gender_diversity : ℚ
  nationality_diversity : ℚ
  experience_diversity : ℚ
  overall_diversity : ℚ
  diversity_rating : String
deriving DecidableEq

/-- Per-crew diversity analysis: the body of the spacecraft loop in
`analyze_team_diversity` (source lines 793-849). -/
def analyze_crew_diversity (crew : List CrewMember) : DiversityReport :=
  let crew_size := crew.length
  let gender_diversity :=
    diversity_score (crew.map CrewMember.gender) crew_size
  let nationality_diversity :=
    diversity_score (crew.map CrewMember.nationality) crew_size
  let experience_diversity :=
    diversity_score (crew.map CrewMember.experience_level) crew_size
  let overall_diversity :=
    (gender_diversity + nationality_diversity + experience_diversity) / 3
  let diversity_rating :=
    if overall_diversity ≥ 0.7 then "Highly Diverse"
    else if overall_diversity ≥ 0.5 then "Moderately Diverse"
    else if overall_diversity ≥ 0.3 then "Low Diversity"
    else "Homogeneous"
  { crew_size := crew_size
    gender_diversity := gender_diversity
    nationality_diversity := nationality_diversity
    experience_diversity := experience_diversity
    overall_diversity := overall_diversity
    diversity_rating := diversity_rating }

/-- The task `analyze_team_diversity` (source lines 741-920), its random
demographic draw abstracted into the crew records: group the crew members
by craft, then analyze each spacecraft's crew. -/
def analyze_team_diversity (crew_members : List CrewMember) :
    List (String × DiversityReport) :=
  (crew_members.foldl
      (fun g m => updateAssoc g m.craft (fun o => o.getD [] ++ [m])) []).map
    (fun p => (p.1, analyze_crew_diversity p.2))

/-- Simpson's Diversity Index as the specification words it: one minus
the sum, over the distinct categories, of the squared share of each
category. -/
def simpson_index (values : List String) : ℚ :=
  1 - ∑ x ∈ values.toFinset, ((values.count x : ℚ) / values.length) ^ 2

/-- Updating a key that occurs in a duplicate-free mapped key list
rewrites exactly that key's value in place. -/
theorem updateAssoc_map_of_mem (ks : List String) (c : String → ℕ)
    (x : String) (f : Option ℕ → ℕ) (hnd : ks.Nodup) (hx : x ∈ ks) :
    updateAssoc (ks.map (fun k => (k, c k))) x f =
      ks.map (fun k => (k, if k = x then f (some (c x)) else c k)) := by
  induction ks with
  | nil => cases hx
  | cons k ks ih =>
    rcases List.nodup_cons.1 hnd with ⟨hk, hnd'⟩
    rcases List.mem_cons.1 hx with rfl | hx'
    · have htail : List.map (fun k => (k, c k)) ks =
          List.map (fun k => (k, if k = x then f (some (c x)) else c k)) ks := by
        apply List.map_congr_left
        intro a ha
        have hax : a ≠ x := fun hh => hk (hh ▸ ha)
        simp [hax]
      simp only [List.map_cons, updateAssoc, if_pos rfl, ← htail]
      simp
    · have hkx : k ≠ x := fun hh => hk (hh ▸ hx')
      simp only [List.map_cons, updateAssoc, if_neg hkx]
      rw [ih hnd' hx']

/-- Updating a key absent from a mapped key list appends a fresh entry. -/
theorem updateAssoc_map_of_not_mem (ks : List String) (c : String → ℕ)
    (x : String) (f : Option ℕ → ℕ) (hx : x ∉ ks) :
    updateAssoc (ks.map (fun k => (k, c k))) x f =
      ks.map (fun k => (k, c k)) ++ [(x, f none)] := by
  induction ks with
  | nil => simp [updateAssoc]
  | cons k ks ih =>
    have hkx : k ≠ x := fun hh => hx (hh ▸ List.mem_cons_self k ks)
    simp only [List.map_cons, updateAssoc, if_neg hkx, List.cons_append]
    rw [ih (fun hh => hx (List.mem_cons_of_mem _ hh))]

/-- The category-count dictionary is exactly the first-seen distinct
values paired with their occurrence counts. -/
theorem category_counts_eq (values : List String) :
    category_counts values =
      (firstSeen values).map (fun k => (k, values.count k)) := by
  induction values using List.reverseRecOn with
  | nil => rfl
  | append_singleton vs x ih =>
    unfold category_counts at ih ⊢
    rw [List.foldl_append, List.foldl_cons, List.foldl_nil, ih,
      firstSeen_append_singleton]
    by_cases hx : x ∈ vs
    · rw [if_pos hx, updateAssoc_map_of_mem _ _ _ _ (nodup_firstSeen vs)
        ((mem_firstSeen vs x).2 hx)]
      apply List.map_congr_left
      intro a ha
      by_cases hax : a = x
      · subst hax
        simp [List.count_append]
      · simp [List.count_append, hax]
    · rw [if_neg hx, updateAssoc_map_of_not_mem _ _ _ _
        (fun hc => hx ((mem_firstSeen vs x).1 hc)), List.map_append]
      congr 1
      · apply List.map_congr_left
        intro a ha
        have hax : a ≠ x := fun hh => hx (hh ▸ (mem_firstSeen vs a).1 ha)
        simp [List.count_append, hax]
      · simp [List.count_append, List.count_eq_zero.2 hx]

/-- Summing a function over the first-seen distinct values equals summing
it over the finite set of values. -/
theorem sum_map_firstSeen {M : Type} [AddCommMonoid M] (l : List String)
    (g : String → M) :
    ((firstSeen l).map g).sum = ∑ x ∈ l.toFinset, g x := by
  rw [← List.sum_toFinset g (nodup_firstSeen l)]
  congr 1
  ext x
  simp [List.mem_toFinset, mem_firstSeen]

/-- The code's diversity score over a value list, taken with the crew
size equal to the list length, is Simpson's Diversity Index. -/
theorem diversity_score_eq_simpson (l : List String) :
    diversity_score l l.length = simpson_index l := by
  unfold diversity_score simpson_index
  congr 1
  rw [category_counts_eq, List.map_map, sum_map_firstSeen]
  exact Finset.sum_congr rfl (fun x _ => rfl)

/-- For a non-empty value list, the diversity score lies in the unit
interval. -/
theorem diversity_score_mem_unit (l : List String) (h : l ≠ []) :
    0 ≤ diversity_score l l.length ∧ diversity_score l l.length ≤ 1 := by
  have hN : (0 : ℚ) < l.length := by
    have hl : 0 < l.length := List.length_pos.2 h
    exact_mod_cast hl
  rw [diversity_score_eq_simpson]
  unfold simpson_index
  have hsum0 : (0 : ℚ) ≤
      ∑ x ∈ l.toFinset, ((l.count x : ℚ) / l.length) ^ 2 :=
    Finset.sum_nonneg (fun x _ => sq_nonneg _)
  have hterm : ∀ x ∈ l.toFinset,
      ((l.count x : ℚ) / l.length) ^ 2 ≤ (l.count x : ℚ) / l.length := by
    intro x _
    have h0 : (0 : ℚ) ≤ (l.count x : ℚ) / l.length :=
      div_nonneg (by exact_mod_cast Nat.zero_le _) (le_of_lt hN)
    have h1 : (l.count x : ℚ) / l.length ≤ 1 := by
      rw [div_le_one hN]
      exact_mod_cast List.count_le_length x l
    rw [sq]
    exact mul_le_of_le_one_left h0 h1
  have hsum1 : ∑ x ∈ l.toFinset, ((l.count x : ℚ) / l.length) ^ 2 ≤ 1 := by
    have hc : ∑ x ∈ l.toFinset, l.count x = l.length := by
      have hms := Multiset.toFinset_sum_count_eq (l : Multiset String)
      simpa using hms
    calc ∑ x ∈ l.toFinset, ((l.count x : ℚ) / l.length) ^ 2
        ≤ ∑ x ∈ l.toFinset, (l.count x : ℚ) / l.length :=
          Finset.sum_le_sum hterm
      _ = (∑ x ∈ l.toFinset, (l.count x : ℚ)) / l.length :=
          (Finset.sum_div _ _ _).symm
      _ = 1 := by
          rw [show (∑ x ∈ l.toFinset, (l.count x : ℚ)) =
              ((∑ x ∈ l.toFinset, l.count x : ℕ) : ℚ) by push_cast; ring]
          rw [hc]
          exact div_self (ne_of_gt hN)
  constructor
  · linarith
  · linarith

/-- When every value of a non-empty list is the same, the diversity score
is zero: there is one category with a full share. -/
theorem diversity_score_all_same (l : List String) (h : l ≠ [])
    (g : String) (hall : ∀ x ∈ l, x = g) :
    diversity_score l l.length = 0 := by
  have hg : g ∈ l := by
    cases l with
    | nil => exact absurd rfl h
    | cons y ys =>
        exact (hall y (List.mem_cons_self y ys)) ▸ List.mem_cons_self y ys
  have htf : l.toFinset = {g} := by
    ext x
    simp only [List.mem_toFinset, Finset.mem_singleton]
    exact ⟨fun hx => hall x hx, fun hx => hx ▸ hg⟩
  have hcount : l.count g = l.length := by
    refine List.count_eq_length.2 ?_
    intro b hb
    simp [hall b hb]
  have hN : (l.length : ℚ) ≠ 0 := by
    have hl : 0 < l.length := List.length_pos.2 h
    exact_mod_cast (ne_of_gt hl)
  rw [diversity_score_eq_simpson]
  unfold simpson_index
  rw [htf, Finset.sum_singleton, hcount, div_self hN]
  norm_num

/-- C7: for every non-empty crew grouped under one spacecraft, each of
the three diversity scores equals Simpson's Diversity Index over that
dimension's category counts with N the crew size, each lies in [0, 1], a
dimension in which all members share one value (in particular any
single-member crew) scores 0, and the overall score is the mean of the
three. -/
theorem c7_crew_diversity (crew : List CrewMember) (h : crew ≠ []) :
    (analyze_crew_diversity crew).gender_diversity =
      simpson_index (crew.map CrewMember.gender) ∧
    (analyze_crew_diversity crew).nationality_diversity =
      simpson_index (crew.map CrewMember.nationality) ∧
    (analyze_crew_diversity crew).experience_diversity =
      simpson_index (crew.map CrewMember.experience_level) ∧
    (0 ≤ (analyze_crew_diversity crew).gender_diversity ∧
      (analyze_crew_diversity crew).gender_diversity ≤ 1) ∧
    (0 ≤ (analyze_crew_diversity crew).nationality_diversity ∧
      (analyze_crew_diversity crew).nationality_diversity ≤ 1) ∧
    (0 ≤ (analyze_crew_diversity crew).experience_diversity ∧
      (analyze_crew_diversity crew).experience_diversity ≤ 1) ∧
    (∀ g : String, (∀ m ∈ crew, m.gender = g) →
      (analyze_crew_diversity crew).gender_diversity = 0) ∧
    (∀ g : String, (∀ m ∈ crew, m.nationality = g) →
      (analyze_crew_diversity crew).nationality_diversity = 0) ∧
    (∀ g : String, (∀ m ∈ crew, m.experience_level = g) →
      (analyze_crew_diversity crew).experience_diversity = 0) ∧
    (analyze_crew_diversity crew).overall_diversity =
      ((analyze_crew_diversity crew).gender_diversity +
        (analyze_crew_diversity crew).nationality_diversity +
        (analyze_crew_diversity crew).experience_diversity) / 3 := by
  have key : ∀ l : List String, l.length = crew.length → l ≠ [] →
      diversity_score l crew.length = simpson_index l ∧
      (0 ≤ diversity_score l crew.length ∧
        diversity_score l crew.length ≤ 1) ∧
      ∀ g : String, (∀ x ∈ l, x = g) →
        diversity_score l crew.length = 0 := by
    intro l hlen hne
    rw [← hlen]
    exact ⟨diversity_score_eq_simpson l, diversity_score_mem_unit l hne,
      fun g hall => diversity_score_all_same l hne g hall⟩
  have hg : (analyze_crew_diversity crew).gender_diversity =
      diversity_score (crew.map CrewMember.gender) crew.length := rfl
  have hn : (analyze_crew_diversity crew).nationality_diversity =
      diversity_score (crew.map CrewMember.nationality) crew.length := rfl
  have he : (analyze_crew_diversity crew).experience_diversity =
      diversity_score (crew.map CrewMember.experience_level) crew.length := rfl
  obtain ⟨kg1, kg2, kg3⟩ := key (crew.map CrewMember.gender)
    (List.length_map _ _) (fun hh => h (List.map_eq_nil_iff.1 hh))
  obtain ⟨kn1, kn2, kn3⟩ := key (crew.map CrewMember.nationality)
    (List.length_map _ _) (fun hh => h (List.map_eq_nil_iff.1 hh))
  obtain ⟨ke1, ke2, ke3⟩ := key (crew.map CrewMember.experience_level)
    (List.length_map _ _) (fun hh => h (List.map_eq_nil_iff.1 hh))
  refine ⟨hg.trans kg1, hn.trans kn1, he.trans ke1,
    ⟨by rw [hg]; exact kg2.1, by rw [hg]; exact kg2.2⟩,
    ⟨by rw [hn]; exact kn2.1, by rw [hn]; exact kn2.2⟩,
    ⟨by rw [he]; exact ke2.1, by rw [he]; exact ke2.2⟩,
    ?_, ?_, ?_, rfl⟩
  · intro g hall
    rw [hg]
    refine kg3 g ?_
    intro x hx
    obtain ⟨m, hm, rfl⟩ := List.mem_map.1 hx
    exact hall m hm
  · intro g hall
    rw [hn]
    refine kn3 g ?_
    intro x hx
    obtain ⟨m, hm, rfl⟩ := List.mem_map.1 hx
    exact hall m hm
  · intro g hall
    rw [he]
    refine ke3 g ?_
    intro x hx
    obtain ⟨m, hm, rfl⟩ := List.mem_map.1 hx
    exact hall m hm

/-- Witness for C7: a single-member crew scores 0 gender diversity. -/
theorem c7_witness :
    (analyze_crew_diversity
      [⟨"A", "ISS", "Female", "USA", "Veteran"⟩]).gender_diversity = 0 :=
  (c7_crew_diversity [⟨"A", "ISS", "Female", "USA", "Veteran"⟩]
    (by simp)).2.2.2.2.2.2.1 "Female" (by simp)
